import Mathlib

/-!
Verification of the ADC noise-budgeting core (`adc_noise_calculation.py`).

The development shallowly embeds the two components of the core:

* the SI engineering-notation string parser `parse_si_string` (source
  lines 6-31), modelled exactly over `List Char` with exact rational
  magnitudes standing for Python floats;
* the noise-budget calculator triggered by the calculate button (source
  lines 53-86) and the SNDR-based inverse estimation (source lines
  151-157), modelled over the reals with the same formulas and the same
  error behaviour (Python raises `ZeroDivisionError` for a float division
  by zero and `ValueError` for `math.log10` of a non-positive argument).
-/

namespace AdcNoise

/-! ## Model of Python `float(s)` on decimal-notation strings

`float` accepts an optional sign, an integer part and/or a fractional
part, and an optional exponent, with surrounding whitespace stripped.
(The special forms `inf`/`nan` and underscore separators are not
modelled; no claim touches them.)  The value is kept as an exact
rational. -/

/-- The whitespace characters stripped by Python `str.strip` / `float`
(ASCII fragment). -/
def isPySpace (c : Char) : Bool :=
  c = ' ' || c = '\t' || c = '\n' || c = '\r' || c = '\x0b' || c = '\x0c'

/-- Strip leading and trailing whitespace, as Python `str.strip()`. -/
def pyStrip (cs : List Char) : List Char :=
  ((cs.dropWhile isPySpace).reverse.dropWhile isPySpace).reverse

/-- Numeric value of a digit string, most significant digit first. -/
def natOfDigits (cs : List Char) : ℕ :=
  cs.foldl (fun n c => 10 * n + (c.toNat - 48)) 0

/-- Consume an optional leading sign, returning `1` or `-1`. -/
def parseSign : List Char → ℤ × List Char
  | '+' :: rest => (1, rest)
  | '-' :: rest => (-1, rest)
  | cs => (1, cs)

/-- Consume `digits [. digits]` or `. digits`; fails when no digit is
present on either side of the point. -/
def parseMantissa (cs : List Char) : Option (ℚ × List Char) :=
  let ip := cs.takeWhile Char.isDigit
  let rest := cs.dropWhile Char.isDigit
  match rest with
  | '.' :: rest2 =>
    let fp := rest2.takeWhile Char.isDigit
    let rest3 := rest2.dropWhile Char.isDigit
    if ip.isEmpty && fp.isEmpty then none
    else some ((natOfDigits ip : ℚ) + (natOfDigits fp : ℚ) / 10 ^ fp.length, rest3)
  | _ => if ip.isEmpty then none else some ((natOfDigits ip : ℚ), rest)

/-- Consume the digits of an exponent after `e`/`E` (with optional
sign); fails when no digit follows. -/
def parseExpDigits (cs : List Char) : Option (ℤ × List Char) :=
  let (sgn, cs1) := parseSign cs
  let ds := cs1.takeWhile Char.isDigit
  if ds.isEmpty then none else some (sgn * natOfDigits ds, cs1.dropWhile Char.isDigit)

/-- Consume an optional exponent part. -/
def parseExponent : List Char → Option (ℤ × List Char)
  | 'e' :: rest => parseExpDigits rest
  | 'E' :: rest => parseExpDigits rest
  | cs => some (0, cs)

/-- Model of Python `float(s)` on a character list: strip whitespace,
optional sign, mantissa, optional exponent, and require the whole input
to be consumed. -/
def pythonFloat (cs : List Char) : Option ℚ :=
  let cs0 := pyStrip cs
  let (sgn, cs1) := parseSign cs0
  match parseMantissa cs1 with
  | none => none
  | some (m, cs2) =>
    match parseExponent cs2 with
    | none => none
    | some (e, cs3) =>
      if cs3.isEmpty then some ((sgn : ℚ) * m * (10 : ℚ) ^ e) else none

/-! ## The SI parser (`parse_si_string`, source lines 6-31) -/

/-- The SI suffix table in the order produced by
`sorted(si_prefixes, key=len, reverse=True)`: Python's sort is stable,
so `meg` (length 3) comes first, the one-letter suffixes keep their
insertion order `G, M, k, m, u, n, p, f`, and the empty suffix
(length 0) comes last. -/
def siSuffixesSorted : List (List Char × ℚ) :=
  [(['m', 'e', 'g'], 1000000),
   (['G'], 1000000000),
   (['M'], 1000000),
   (['k'], 1000),
   (['m'], 1 / 1000),
   (['u'], 1 / 1000000),
   (['n'], 1 / 1000000000),
   (['p'], 1 / 1000000000000),
   (['f'], 1 / 1000000000000000),
   ([], 1)]

/-- Model of the Python slice `s[:-n]`.  For `n = 0` Python evaluates
`s[:-0] = s[:0] = ""`, so the empty-suffix branch always parses the
empty string. -/
def pySliceDropSuffix (cs : List Char) (n : ℕ) : List Char :=
  if n = 0 then [] else cs.take (cs.length - n)

/-- The suffix loop of `parse_si_string`: for each table entry in order,
if the input ends with the suffix and the rest parses as a float, return
the scaled value; otherwise continue with the next entry. -/
def trySuffixes : List (List Char × ℚ) → List Char → Option ℚ
  | [], _ => none
  | (suf, mult) :: rest, cs =>
    if suf.isSuffixOf cs then
      match pythonFloat (pySliceDropSuffix cs suf.length) with
      | some v => some (v * mult)
      | none => trySuffixes rest cs
    else trySuffixes rest cs

/-- `s.strip().replace("µ", "u")` from source line 7: strip whitespace,
then replace the micro sign (codepoint 181) by `u`. -/
def normalizeInput (s : String) : List Char :=
  (pyStrip s.toList).map (fun c => if c.toNat = 181 then 'u' else c)

/-- `parse_si_string` (source lines 6-31): normalize, try a direct float
parse, then the suffix loop; `none` stands for the raised
`ValueError("Could not parse value: ...")`. -/
def parse_si_string (s : String) : Option ℚ :=
  let cs := normalizeInput s
  match pythonFloat cs with
  | some v => some v
  | none => trySuffixes siSuffixesSorted cs

example : parse_si_string "1m" = some (1 / 1000) := by with_unfolding_all rfl
example : parse_si_string "1p" = some (1 / 1000000000000) := by with_unfolding_all rfl
example : parse_si_string "100M" = some 100000000 := by with_unfolding_all rfl
example : parse_si_string "1.5k" = some 1500 := by with_unfolding_all rfl
example : parse_si_string "1meg" = some 1000000 := by with_unfolding_all rfl
example : parse_si_string "abc" = none := by with_unfolding_all rfl
example : parse_si_string "1M" = some 1000000 := by with_unfolding_all rfl
example : parse_si_string "2meg" = some 2000000 := by with_unfolding_all rfl
example : parse_si_string "" = none := by with_unfolding_all rfl
example : parse_si_string "  " = none := by with_unfolding_all rfl
example : parse_si_string "1e-6" = some (1 / 1000000) := by with_unfolding_all rfl

/-! ## The noise-budget calculator (calculate-button block, source lines 53-86)

The numeric core is modelled over the reals.  `math.sqrt` is
`Real.sqrt`, `math.log10` is `Real.logb 10`, and Python float powers are
`Real.rpow`.  A sampling capacitance may be absent (`None`), hence an
`Option ℝ`; Python's truthiness test `use_c and c_sample` is false for
`None` and for the value `0.0`. -/

/-- `kT = 1.38e-23 * 300` from source line 60. -/
noncomputable def kT : ℝ := 1.38e-23 * 300

/-- Quantization noise power (source lines 63-65):
`delta = fs / 2 ** bits`, `v_q_rms = delta / sqrt(12)`, `p_q = v_q_rms ** 2`. -/
noncomputable def quantizationPower (fs : ℝ) (bits : ℤ) : ℝ :=
  (fs / 2 ^ bits / Real.sqrt 12) ^ 2

/-- Thermal (comparator) noise power (source line 68). -/
noncomputable def thermalPower (thermal_rms : ℝ) : ℝ := thermal_rms ^ 2

open Classical in
/-- kT/C noise power (source line 71):
`2 * kT / c_sample if use_c and c_sample else 0`, where `c_sample` is
`None` when the checkbox is off and both `None` and `0.0` are falsy. -/
noncomputable def kTCPower (use_c : Bool) (c_sample : Option ℝ) : ℝ :=
  if use_c then
    match c_sample with
    | some c => if c = 0 then 0 else 2 * kT / c
    | none => 0
  else 0

/-- Jitter noise power (source lines 74-75):
`((2 * pi * f_in * v_peak) ** 2) * (t_jitter ** 2) / 2 if use_jitter else 0`
with `v_peak = fs / 2`. -/
noncomputable def jitterPower (use_jitter : Bool) (fs f_in t_jitter : ℝ) : ℝ :=
  if use_jitter then (2 * Real.pi * f_in * (fs / 2)) ^ 2 * t_jitter ^ 2 / 2 else 0

/-- Total noise power (source line 78): sum of the four terms. -/
noncomputable def totalPower (fs : ℝ) (bits : ℤ) (thermal_rms : ℝ) (use_c : Bool)
    (c_sample : Option ℝ) (use_jitter : Bool) (f_in t_jitter : ℝ) : ℝ :=
  quantizationPower fs bits + thermalPower thermal_rms + kTCPower use_c c_sample +
    jitterPower use_jitter fs f_in t_jitter

/-- Signal power of a full-scale sinusoid (source lines 81-82):
`v_signal_rms = fs / (2 * sqrt(2))`, `p_signal = v_signal_rms ** 2`. -/
noncomputable def signalPower (fs : ℝ) : ℝ := (fs / (2 * Real.sqrt 2)) ^ 2

/-- `snr = 10 * math.log10(p_signal / p_total_noise)` (source line 85). -/
noncomputable def snrVal (fs : ℝ) (bits : ℤ) (thermal_rms : ℝ) (use_c : Bool)
    (c_sample : Option ℝ) (use_jitter : Bool) (f_in t_jitter : ℝ) : ℝ :=
  10 * Real.logb 10
    (signalPower fs / totalPower fs bits thermal_rms use_c c_sample use_jitter f_in t_jitter)

/-- The errors the calculate block can raise while computing `snr`:
Python raises `ZeroDivisionError` when `p_total_noise == 0` and
`ValueError` (math domain error) when `math.log10` gets a non-positive
argument.  Both surface through the `except` handler at source lines
147-148. -/
inductive CalcError where
  | divideByZero
  | mathDomain

/-- The results payload of a successful calculation: the four power
terms, their sum, and the derived SNR/ENOB (source lines 62-86). -/
structure Breakdown where
  quantization_power : ℝ
  thermal_power : ℝ
  kTC_power : ℝ
  jitter_power : ℝ
  total_power : ℝ
  snr_dB : ℝ
  enob_bits : ℝ

/-- The breakdown assembled by a successful run of the calculate block. -/
noncomputable def budgetRecord (fs : ℝ) (bits : ℤ) (thermal_rms : ℝ) (use_c : Bool)
    (c_sample : Option ℝ) (use_jitter : Bool) (f_in t_jitter : ℝ) : Breakdown :=
  Breakdown.mk
    (quantizationPower fs bits)
    (thermalPower thermal_rms)
    (kTCPower use_c c_sample)
    (jitterPower use_jitter fs f_in t_jitter)
    (totalPower fs bits thermal_rms use_c c_sample use_jitter f_in t_jitter)
    (snrVal fs bits thermal_rms use_c c_sample use_jitter f_in t_jitter)
    ((snrVal fs bits thermal_rms use_c c_sample use_jitter f_in t_jitter - 1.76) / 6.02)

open Classical in
/-- The calculate-button block (source lines 53-86) as a function from
the parsed parameters to a result or an error.  `p_signal /
p_total_noise` raises `ZeroDivisionError` exactly when the total is `0`;
otherwise `math.log10` raises a domain error exactly when the ratio is
`≤ 0`; otherwise all values of the results payload are computed. -/
noncomputable def computeBudget (fs : ℝ) (bits : ℤ) (thermal_rms : ℝ) (use_c : Bool)
    (c_sample : Option ℝ) (use_jitter : Bool) (f_in t_jitter : ℝ) :
    Except CalcError Breakdown :=
  if totalPower fs bits thermal_rms use_c c_sample use_jitter f_in t_jitter = 0 then
    .error .divideByZero
  else if signalPower fs / totalPower fs bits thermal_rms use_c c_sample use_jitter f_in t_jitter ≤ 0 then
    .error .mathDomain
  else
    .ok (budgetRecord fs bits thermal_rms use_c c_sample use_jitter f_in t_jitter)

/-- The estimate-button block (source lines 151-157):
`v_signal_rms = fs / (2 * sqrt(2))`,
`v_noise_rms = v_signal_rms / (10 ** (sndr / 20))`,
`enob_sndr = (sndr - 1.76) / 6.02`. -/
noncomputable def estimateFromSNDR (fs sndr : ℝ) : ℝ × ℝ :=
  (fs / (2 * Real.sqrt 2) / (10 : ℝ) ^ (sndr / 20), (sndr - 1.76) / 6.02)

/-! ## Basic evaluation lemmas for the calculator -/

theorem signalPower_eq (fs : ℝ) : signalPower fs = fs ^ 2 / 8 := by
  rw [signalPower, div_pow, mul_pow, Real.sq_sqrt (by norm_num : (0:ℝ) ≤ 2)]
  norm_num

theorem signalPower_pos {fs : ℝ} (hfs : fs ≠ 0) : 0 < signalPower fs := by
  rw [signalPower_eq]
  positivity

theorem quantizationPower_eq (fs : ℝ) (bits : ℤ) :
    quantizationPower fs bits = (fs / 2 ^ bits) ^ 2 / 12 := by
  rw [quantizationPower, div_pow, Real.sq_sqrt (by norm_num : (0:ℝ) ≤ 12)]

theorem quantizationPower_pos {fs : ℝ} (bits : ℤ) (hfs : fs ≠ 0) :
    0 < quantizationPower fs bits := by
  rw [quantizationPower_eq]
  have h2 : ((2 : ℝ) ^ bits) ≠ 0 := zpow_ne_zero bits two_ne_zero
  have h : fs / 2 ^ bits ≠ 0 := div_ne_zero hfs h2
  positivity

theorem quantizationPower_nonneg (fs : ℝ) (bits : ℤ) : 0 ≤ quantizationPower fs bits := by
  rw [quantizationPower]; positivity

theorem thermalPower_nonneg (t : ℝ) : 0 ≤ thermalPower t := by
  rw [thermalPower]; positivity

theorem jitterPower_nonneg (uj : Bool) (fs f_in t : ℝ) : 0 ≤ jitterPower uj fs f_in t := by
  rw [jitterPower]
  split
  · positivity
  · exact le_refl 0

theorem kT_pos : 0 < kT := by rw [kT]; norm_num

theorem kTCPower_false (c_sample : Option ℝ) : kTCPower false c_sample = 0 := rfl

theorem kTCPower_true_some {c : ℝ} (hc : c ≠ 0) : kTCPower true (some c) = 2 * kT / c := by
  rw [kTCPower.eq_def]
  simp [hc]

theorem kTCPower_nonneg (use_c : Bool) {c_sample : Option ℝ}
    (hc : ∀ c, c_sample = some c → 0 ≤ c) : 0 ≤ kTCPower use_c c_sample := by
  rw [kTCPower.eq_def]
  split
  · cases c_sample with
    | some c =>
      have hc0 := hc c rfl
      dsimp only
      split
      · exact le_refl 0
      · exact div_nonneg (by norm_num [kT]) hc0
    | none => exact le_refl 0
  · exact le_refl 0

theorem totalPower_pos {fs : ℝ} (bits : ℤ) (thermal_rms : ℝ) (use_c : Bool)
    (c_sample : Option ℝ) (use_jitter : Bool) (f_in t_jitter : ℝ)
    (hfs : fs ≠ 0) (hk : 0 ≤ kTCPower use_c c_sample) :
    0 < totalPower fs bits thermal_rms use_c c_sample use_jitter f_in t_jitter := by
  rw [totalPower]
  have h1 := quantizationPower_pos bits hfs
  have h2 := thermalPower_nonneg thermal_rms
  have h4 := jitterPower_nonneg use_jitter fs f_in t_jitter
  linarith

/-- A run of the calculate block succeeds and yields the record of all
computed values as soon as the total is non-zero and the SNR ratio is
positive. -/
theorem computeBudget_eq_ok (fs : ℝ) (bits : ℤ) (thermal_rms : ℝ) (use_c : Bool)
    (c_sample : Option ℝ) (use_jitter : Bool) (f_in t_jitter : ℝ)
    (h1 : totalPower fs bits thermal_rms use_c c_sample use_jitter f_in t_jitter ≠ 0)
    (h2 : 0 < signalPower fs / totalPower fs bits thermal_rms use_c c_sample use_jitter f_in t_jitter) :
    computeBudget fs bits thermal_rms use_c c_sample use_jitter f_in t_jitter =
      .ok (budgetRecord fs bits thermal_rms use_c c_sample use_jitter f_in t_jitter) := by
  rw [computeBudget, if_neg h1, if_neg (not_le.mpr h2)]

/-- Success under the usual situation: non-zero full-scale voltage and
non-negative kT/C term. -/
theorem computeBudget_eq_ok_of_ne (fs : ℝ) (bits : ℤ) (thermal_rms : ℝ) (use_c : Bool)
    (c_sample : Option ℝ) (use_jitter : Bool) (f_in t_jitter : ℝ)
    (hfs : fs ≠ 0) (hk : 0 ≤ kTCPower use_c c_sample) :
    computeBudget fs bits thermal_rms use_c c_sample use_jitter f_in t_jitter =
      .ok (budgetRecord fs bits thermal_rms use_c c_sample use_jitter f_in t_jitter) := by
  have hpt := totalPower_pos bits thermal_rms use_c c_sample use_jitter f_in t_jitter hfs hk
  exact computeBudget_eq_ok _ _ _ _ _ _ _ _ (ne_of_gt hpt)
    (div_pos (signalPower_pos hfs) hpt)

/-! ## Claims -/

/-- C3: the SI parser satisfies the spec's test vector:
`parse("1m") = 1e-3`, `parse("1p") = 1e-12`, `parse("100M") = 1e8`,
`parse("1.5k") = 1500`, `parse("1meg") = 1e6`, `parse("abc")` fails, and
`1m` vs `1M` resolve to the different magnitudes `1e-3` and `1e6`. -/
theorem C3_parser_test_vector :
    parse_si_string "1m" = some (1 / 1000) ∧
    parse_si_string "1p" = some (1 / 1000000000000) ∧
    parse_si_string "100M" = some 100000000 ∧
    parse_si_string "1.5k" = some 1500 ∧
    parse_si_string "1meg" = some 1000000 ∧
    parse_si_string "abc" = none ∧
    parse_si_string "1M" = some 1000000 ∧
    parse_si_string "1m" ≠ parse_si_string "1M" := by
  have h1 : parse_si_string "1m" = some (1 / 1000) := by with_unfolding_all rfl
  have h2 : parse_si_string "1M" = some 1000000 := by with_unfolding_all rfl
  refine ⟨h1, ?_, ?_, ?_, ?_, ?_, h2, ?_⟩
  · with_unfolding_all rfl
  · with_unfolding_all rfl
  · with_unfolding_all rfl
  · with_unfolding_all rfl
  · with_unfolding_all rfl
  · rw [h1, h2]
    intro heq
    have : (1 / 1000 : ℚ) = 1000000 := Option.some.inj heq
    norm_num at this

/-- C10: parsing the empty string or a whitespace-only string fails:
the direct float parse fails and no suffix branch (the empty suffix
included, whose stripped remainder is always the empty string) can
succeed. -/
theorem C10_whitespace_only_fails (s : String)
    (h : ∀ c ∈ s.toList, isPySpace c = true) : parse_si_string s = none := by
  have hstrip : pyStrip s.toList = [] := by
    rw [pyStrip, List.dropWhile_eq_nil_iff.mpr h]
    simp
  rw [parse_si_string, normalizeInput, hstrip]
  with_unfolding_all rfl

/-- C10 witness: both the empty string and a whitespace-only string are
rejected by the parser. -/
theorem C10_whitespace_only_fails_witness :
    (∀ c ∈ ("  " : String).toList, isPySpace c = true) ∧
    parse_si_string "  " = none :=
  ⟨by decide, C10_whitespace_only_fails "  " (by decide)⟩

/-- C8: whenever the (normalized) input does not parse directly as a
float, ends in `meg`, and the remainder before `meg` parses as a float,
the `meg` multiplier `1e6` is applied — never the bare `m` (milli)
multiplier, since `meg` is tried first in the length-sorted suffix
table. -/
theorem C8_meg_suffix_wins (s : String) (v : ℚ)
    (hfloat : pythonFloat (normalizeInput s) = none)
    (hsuffix : (['m', 'e', 'g']).isSuffixOf (normalizeInput s) = true)
    (hrem : pythonFloat (pySliceDropSuffix (normalizeInput s) 3) = some v) :
    parse_si_string s = some (v * 1000000) := by
  rw [parse_si_string, hfloat]
  show trySuffixes siSuffixesSorted (normalizeInput s) = some (v * 1000000)
  rw [siSuffixesSorted, trySuffixes, if_pos hsuffix]
  have hlen : (['m', 'e', 'g'] : List Char).length = 3 := rfl
  rw [hlen, hrem]

/-- C8 witness: `parse("2meg") = 2e6`, not `2e3`. -/
theorem C8_meg_suffix_wins_witness :
    parse_si_string "2meg" = some (2 * 1000000) ∧ (2 * 1000000 : ℚ) ≠ 2000 :=
  ⟨C8_meg_suffix_wins "2meg" 2 (by with_unfolding_all rfl) (by decide)
      (by with_unfolding_all rfl),
    by norm_num⟩

/-- C7: the SNDR-based inverse estimation returns exactly
`estimated_noise_rms = (fs / (2*sqrt 2)) / 10^(sndr/20)` and
`enob = (sndr - 1.76) / 6.02`, for every full-scale voltage and measured
SNDR; it is a function of these two inputs alone and never reads a noise
breakdown. -/
theorem C7_estimateFromSNDR_closed_form (fs sndr : ℝ) :
    estimateFromSNDR fs sndr =
      (fs / (2 * Real.sqrt 2) / (10 : ℝ) ^ (sndr / 20), (sndr - 1.76) / 6.02) := rfl

/-- C5: whenever the total noise power is exactly zero, the calculation
fails with the distinguished division-by-zero error (Python's
`ZeroDivisionError` from `p_signal / p_total_noise`) rather than
returning any numeric SNR. -/
theorem C5_zero_total_is_divideByZero (fs : ℝ) (bits : ℤ) (thermal_rms : ℝ)
    (use_c : Bool) (c_sample : Option ℝ) (use_jitter : Bool) (f_in t_jitter : ℝ)
    (h : totalPower fs bits thermal_rms use_c c_sample use_jitter f_in t_jitter = 0) :
    computeBudget fs bits thermal_rms use_c c_sample use_jitter f_in t_jitter =
      .error CalcError.divideByZero := by
  rw [computeBudget, if_pos h]

/-- C5 witness: with a zero full-scale voltage and all other noise
sources zero or disabled the total is exactly zero, and the calculation
reports the division-by-zero error. -/
theorem C5_zero_total_is_divideByZero_witness :
    totalPower 0 0 0 false none false 0 0 = 0 ∧
    computeBudget 0 0 0 false none false 0 0 = .error CalcError.divideByZero := by
  have h : totalPower 0 0 0 false none false 0 0 = 0 := by
    simp [totalPower, quantizationPower, thermalPower, kTCPower, jitterPower]
  exact ⟨h, C5_zero_total_is_divideByZero 0 0 0 false none false 0 0 h⟩

/-- C1 (amended): under the data-model hypotheses the calculation
succeeds and produces exactly the spec's four power terms and their sum,
with the kT/C term equal to `2 * kT / C` for `kT = 1.38e-23 * 300`
(= 4.14e-21 J, the constant in the code) — not `1.380649e-23 * 300`. -/
theorem C1_budget_formulas (fs : ℝ) (bits : ℤ) (thermal_rms : ℝ) (use_c : Bool)
    (c_sample : Option ℝ) (use_jitter : Bool) (f_in t_jitter : ℝ)
    (hfs : 0 < fs) (hbits : 1 ≤ bits) (hth : 0 ≤ thermal_rms) (hf : 0 ≤ f_in)
    (ht : 0 ≤ t_jitter) (hc : use_c = true → ∃ c, c_sample = some c ∧ 0 < c) :
    computeBudget fs bits thermal_rms use_c c_sample use_jitter f_in t_jitter =
      .ok (budgetRecord fs bits thermal_rms use_c c_sample use_jitter f_in t_jitter) ∧
    (budgetRecord fs bits thermal_rms use_c c_sample use_jitter f_in t_jitter).quantization_power =
      (fs / 2 ^ bits / Real.sqrt 12) ^ 2 ∧
    (budgetRecord fs bits thermal_rms use_c c_sample use_jitter f_in t_jitter).thermal_power =
      thermal_rms ^ 2 ∧
    (∀ c, use_c = true → c_sample = some c →
      (budgetRecord fs bits thermal_rms use_c c_sample use_jitter f_in t_jitter).kTC_power =
        2 * (1.38e-23 * 300) / c) ∧
    (use_c = false →
      (budgetRecord fs bits thermal_rms use_c c_sample use_jitter f_in t_jitter).kTC_power = 0) ∧
    (use_jitter = true →
      (budgetRecord fs bits thermal_rms use_c c_sample use_jitter f_in t_jitter).jitter_power =
        (2 * Real.pi * f_in * (fs / 2)) ^ 2 * t_jitter ^ 2 / 2) ∧
    (use_jitter = false →
      (budgetRecord fs bits thermal_rms use_c c_sample use_jitter f_in t_jitter).jitter_power = 0) ∧
    (budgetRecord fs bits thermal_rms use_c c_sample use_jitter f_in t_jitter).total_power =
      (budgetRecord fs bits thermal_rms use_c c_sample use_jitter f_in t_jitter).quantization_power +
      (budgetRecord fs bits thermal_rms use_c c_sample use_jitter f_in t_jitter).thermal_power +
      (budgetRecord fs bits thermal_rms use_c c_sample use_jitter f_in t_jitter).kTC_power +
      (budgetRecord fs bits thermal_rms use_c c_sample use_jitter f_in t_jitter).jitter_power := by
  have hk : 0 ≤ kTCPower use_c c_sample := by
    cases use_c with
    | false => exact le_of_eq (kTCPower_false c_sample).symm
    | true =>
      obtain ⟨c, hcs, hcpos⟩ := hc rfl
      rw [hcs, kTCPower_true_some (ne_of_gt hcpos)]
      have h2kT : (0:ℝ) ≤ 2 * kT := by rw [kT]; norm_num
      exact div_nonneg h2kT (le_of_lt hcpos)
  refine ⟨computeBudget_eq_ok_of_ne fs bits thermal_rms use_c c_sample use_jitter f_in
      t_jitter (ne_of_gt hfs) hk, rfl, rfl, ?_, ?_, ?_, ?_, rfl⟩
  · intro c huc hcs
    subst huc
    show kTCPower true c_sample = 2 * (1.38e-23 * 300) / c
    obtain ⟨c', hcs', hcpos⟩ := hc rfl
    rw [hcs] at hcs'
    obtain rfl : c = c' := Option.some.inj hcs'
    rw [hcs, kTCPower_true_some (ne_of_gt hcpos), kT]
  · intro huc
    subst huc
    exact kTCPower_false c_sample
  · intro huj
    subst huj
    rfl
  · intro huj
    subst huj
    rfl

/-- C1 witness: at a fully in-range parameter set the calculation
succeeds with the stated breakdown. -/
theorem C1_budget_formulas_witness :
    computeBudget 1 8 0 true (some 1) false 0 0 =
      .ok (budgetRecord 1 8 0 true (some 1) false 0 0) :=
  (C1_budget_formulas 1 8 0 true (some 1) false 0 0 (by norm_num) (by norm_num)
    (le_refl 0) (le_refl 0) (le_refl 0) (fun _ => ⟨1, rfl, by norm_num⟩)).1

/-- C1 counterexample: the code's kT/C term uses `kT = 1.38e-23 * 300`,
so at a capacitance of 1 F it differs from the claim's
`2 * (1.380649e-23 * 300) / C`. -/
theorem C1_kT_constant_counterexample :
    computeBudget 1 1 0 true (some 1) false 0 0 =
      .ok (budgetRecord 1 1 0 true (some 1) false 0 0) ∧
    (budgetRecord 1 1 0 true (some 1) false 0 0).kTC_power ≠
      2 * (1.380649e-23 * 300) / 1 := by
  constructor
  · exact computeBudget_eq_ok_of_ne 1 1 0 true (some 1) false 0 0 (by norm_num)
      (by rw [kTCPower_true_some (by norm_num : (1:ℝ) ≠ 0), kT]; norm_num)
  · show kTCPower true (some 1) ≠ 2 * (1.380649e-23 * 300) / 1
    rw [kTCPower_true_some (by norm_num : (1:ℝ) ≠ 0), kT]
    norm_num

/-- C2: whenever the total noise power is strictly positive (and the
full-scale voltage of the parameter set is non-zero, as the data model
requires), the calculation returns
`snr_dB = 10 * log10(signal_power / total_power)` with
`signal_power = (fs / (2*sqrt 2))^2`, and
`enob_bits = (snr_dB - 1.76) / 6.02`. -/
theorem C2_snr_enob_formulas (fs : ℝ) (bits : ℤ) (thermal_rms : ℝ) (use_c : Bool)
    (c_sample : Option ℝ) (use_jitter : Bool) (f_in t_jitter : ℝ)
    (hfs : fs ≠ 0)
    (hpt : 0 < totalPower fs bits thermal_rms use_c c_sample use_jitter f_in t_jitter) :
    computeBudget fs bits thermal_rms use_c c_sample use_jitter f_in t_jitter =
      .ok (budgetRecord fs bits thermal_rms use_c c_sample use_jitter f_in t_jitter) ∧
    (budgetRecord fs bits thermal_rms use_c c_sample use_jitter f_in t_jitter).snr_dB =
      10 * Real.logb 10 ((fs / (2 * Real.sqrt 2)) ^ 2 /
        totalPower fs bits thermal_rms use_c c_sample use_jitter f_in t_jitter) ∧
    (budgetRecord fs bits thermal_rms use_c c_sample use_jitter f_in t_jitter).enob_bits =
      ((budgetRecord fs bits thermal_rms use_c c_sample use_jitter f_in t_jitter).snr_dB -
        1.76) / 6.02 :=
  ⟨computeBudget_eq_ok fs bits thermal_rms use_c c_sample use_jitter f_in t_jitter
      (ne_of_gt hpt) (div_pos (signalPower_pos hfs) hpt), rfl, rfl⟩

/-- C2 witness: an in-range quantization-only parameter set has positive
total noise power and gets the stated SNR/ENOB formulas. -/
theorem C2_snr_enob_formulas_witness :
    (0:ℝ) < totalPower 1 8 0 false none false 0 0 ∧
    (budgetRecord 1 8 0 false none false 0 0).snr_dB =
      10 * Real.logb 10 (((1:ℝ) / (2 * Real.sqrt 2)) ^ 2 / totalPower 1 8 0 false none false 0 0) := by
  have hpt : (0:ℝ) < totalPower 1 8 0 false none false 0 0 :=
    totalPower_pos 8 0 false none false 0 0 (by norm_num) (by simp [kTCPower])
  exact ⟨hpt, (C2_snr_enob_formulas 1 8 0 false none false 0 0 (by norm_num) hpt).2.1⟩

/-- C4 (amended): the calculate block performs no domain validation at
all — it fails exactly when the SNR arithmetic is undefined, namely when
the total noise power is zero (division by zero) or the signal-to-noise
ratio is non-positive (log domain); no dedicated
`InvalidParameterError` exists, and parameter sets violating the spec's
domain constraints otherwise return full numeric results. -/
theorem C4_error_iff_undefined_snr (fs : ℝ) (bits : ℤ) (thermal_rms : ℝ) (use_c : Bool)
    (c_sample : Option ℝ) (use_jitter : Bool) (f_in t_jitter : ℝ) :
    (∃ e, computeBudget fs bits thermal_rms use_c c_sample use_jitter f_in t_jitter =
        .error e) ↔
      totalPower fs bits thermal_rms use_c c_sample use_jitter f_in t_jitter = 0 ∨
      signalPower fs / totalPower fs bits thermal_rms use_c c_sample use_jitter f_in t_jitter ≤ 0 := by
  unfold computeBudget
  split_ifs with h1 h2
  · exact iff_of_true ⟨_, rfl⟩ (Or.inl h1)
  · exact iff_of_true ⟨_, rfl⟩ (Or.inr h2)
  · refine iff_of_false ?_ ?_
    · rintro ⟨e, he⟩
      cases he
    · rintro (h | h)
      · exact h1 h
      · exact h2 h

/-- C4 counterexample: a parameter set violating all three domain
constraints at once — negative full-scale voltage, zero resolution bits,
and kT/C enabled with the capacitance absent — still returns a full
numeric result instead of failing with `InvalidParameterError`. -/
theorem C4_no_validation_counterexample :
    computeBudget (-1) 0 0 true none false 0 0 =
      .ok (budgetRecord (-1) 0 0 true none false 0 0) :=
  computeBudget_eq_ok_of_ne (-1) 0 0 true none false 0 0 (by norm_num)
    (by simp [kTCPower])

/-- C9 (amended): every returned breakdown has non-negative
quantization, thermal and jitter powers, and total equal to the sum of
the four terms; the kT/C term is non-negative provided the capacitance,
when present, is non-negative — for a negative capacitance the code
returns a negative kT/C power (see the counterexample). -/
theorem C9_returned_powers_nonneg (fs : ℝ) (bits : ℤ) (thermal_rms : ℝ) (use_c : Bool)
    (c_sample : Option ℝ) (use_jitter : Bool) (f_in t_jitter : ℝ)
    (hc : ∀ c, c_sample = some c → 0 ≤ c) :
    ∀ r, computeBudget fs bits thermal_rms use_c c_sample use_jitter f_in t_jitter = .ok r →
      0 ≤ r.quantization_power ∧ 0 ≤ r.thermal_power ∧ 0 ≤ r.kTC_power ∧
      0 ≤ r.jitter_power ∧
      r.total_power = r.quantization_power + r.thermal_power + r.kTC_power + r.jitter_power ∧
      0 ≤ r.total_power := by
  intro r hr
  unfold computeBudget at hr
  split_ifs at hr
  cases hr
  have h1 := quantizationPower_nonneg fs bits
  have h2 := thermalPower_nonneg thermal_rms
  have h3 := kTCPower_nonneg use_c hc
  have h4 := jitterPower_nonneg use_jitter fs f_in t_jitter
  exact ⟨h1, h2, h3, h4, rfl, by rw [show (budgetRecord fs bits thermal_rms use_c c_sample
    use_jitter f_in t_jitter).total_power = totalPower fs bits thermal_rms use_c c_sample
    use_jitter f_in t_jitter from rfl, totalPower]; linarith⟩

/-- C9 witness: with a positive capacitance the returned breakdown is
component-wise non-negative. -/
theorem C9_returned_powers_nonneg_witness :
    0 ≤ (budgetRecord 1 8 0 true (some 1) false 0 0).quantization_power ∧
    0 ≤ (budgetRecord 1 8 0 true (some 1) false 0 0).thermal_power ∧
    0 ≤ (budgetRecord 1 8 0 true (some 1) false 0 0).kTC_power ∧
    0 ≤ (budgetRecord 1 8 0 true (some 1) false 0 0).jitter_power ∧
    (budgetRecord 1 8 0 true (some 1) false 0 0).total_power =
      (budgetRecord 1 8 0 true (some 1) false 0 0).quantization_power +
      (budgetRecord 1 8 0 true (some 1) false 0 0).thermal_power +
      (budgetRecord 1 8 0 true (some 1) false 0 0).kTC_power +
      (budgetRecord 1 8 0 true (some 1) false 0 0).jitter_power ∧
    0 ≤ (budgetRecord 1 8 0 true (some 1) false 0 0).total_power := by
  have hc : ∀ c : ℝ, (some (1:ℝ)) = some c → 0 ≤ c := by
    intro c hcc
    rw [← Option.some.inj hcc]
    norm_num
  have hok : computeBudget 1 8 0 true (some 1) false 0 0 =
      .ok (budgetRecord 1 8 0 true (some 1) false 0 0) :=
    computeBudget_eq_ok_of_ne 1 8 0 true (some 1) false 0 0 (by norm_num)
      (kTCPower_nonneg true hc)
  exact C9_returned_powers_nonneg 1 8 0 true (some 1) false 0 0 hc _ hok

/-- C9 counterexample: with a negative capacitance (−1 F) and kT/C
enabled the calculation still returns a result, and its kT/C power is
strictly negative. -/
theorem C9_negative_kTC_counterexample :
    computeBudget 1 1 0 true (some (-1)) false 0 0 =
      .ok (budgetRecord 1 1 0 true (some (-1)) false 0 0) ∧
    (budgetRecord 1 1 0 true (some (-1)) false 0 0).kTC_power < 0 := by
  have hk : kTCPower true (some (-1)) = 2 * kT / (-1) :=
    kTCPower_true_some (by norm_num : (-1:ℝ) ≠ 0)
  have hkneg : kTCPower true (some (-1)) < 0 := by
    rw [hk, kT]
    norm_num
  have hqp : quantizationPower 1 1 = 1 / 48 := by
    rw [quantizationPower_eq]
    norm_num
  have hpt : totalPower 1 1 0 true (some (-1)) false 0 0 ≠ 0 := by
    rw [totalPower, hqp, hk, kT]
    simp [thermalPower, jitterPower]
    norm_num
  have hptpos : 0 < totalPower 1 1 0 true (some (-1)) false 0 0 := by
    rw [totalPower, hqp, hk, kT]
    simp [thermalPower, jitterPower]
    norm_num
  exact ⟨computeBudget_eq_ok 1 1 0 true (some (-1)) false 0 0 hpt
      (div_pos (signalPower_pos (by norm_num)) hptpos), hkneg⟩

theorem jitterPower_true (fs f_in t : ℝ) :
    jitterPower true fs f_in t = (2 * Real.pi * f_in * (fs / 2)) ^ 2 * t ^ 2 / 2 := rfl

/-- C6: with jitter enabled, a positive input frequency and a positive
full-scale voltage, and all other parameters fixed (capacitance, when
present, non-negative), increasing the clock jitter strictly increases
the jitter power and strictly decreases the SNR. -/
theorem C6_jitter_strict_monotonicity (fs : ℝ) (bits : ℤ) (thermal_rms : ℝ)
    (use_c : Bool) (c_sample : Option ℝ) (f_in t1 t2 : ℝ)
    (hfs : 0 < fs) (hf : 0 < f_in)
    (hc : ∀ c, c_sample = some c → 0 ≤ c)
    (ht1 : 0 ≤ t1) (h12 : t1 < t2) :
    jitterPower true fs f_in t1 < jitterPower true fs f_in t2 ∧
    snrVal fs bits thermal_rms use_c c_sample true f_in t2 <
      snrVal fs bits thermal_rms use_c c_sample true f_in t1 := by
  have hA : 0 < (2 * Real.pi * f_in * (fs / 2)) ^ 2 := by
    have hpi := Real.pi_pos
    positivity
  have hjlt : jitterPower true fs f_in t1 < jitterPower true fs f_in t2 := by
    rw [jitterPower_true, jitterPower_true]
    have hsq : t1 ^ 2 < t2 ^ 2 := by nlinarith
    have hmul := mul_lt_mul_of_pos_left hsq hA
    linarith
  refine ⟨hjlt, ?_⟩
  have hps : 0 < signalPower fs := signalPower_pos (ne_of_gt hfs)
  have hk := kTCPower_nonneg use_c hc
  have hT1 : 0 < totalPower fs bits thermal_rms use_c c_sample true f_in t1 :=
    totalPower_pos bits thermal_rms use_c c_sample true f_in t1 (ne_of_gt hfs) hk
  have hTlt : totalPower fs bits thermal_rms use_c c_sample true f_in t1 <
      totalPower fs bits thermal_rms use_c c_sample true f_in t2 := by
    rw [totalPower, totalPower]
    linarith
  have hT2 : 0 < totalPower fs bits thermal_rms use_c c_sample true f_in t2 :=
    lt_trans hT1 hTlt
  have hratio : signalPower fs / totalPower fs bits thermal_rms use_c c_sample true f_in t2 <
      signalPower fs / totalPower fs bits thermal_rms use_c c_sample true f_in t1 :=
    div_lt_div_of_pos_left hps hT1 hTlt
  have hlog := Real.logb_lt_logb (by norm_num : (1:ℝ) < 10) (div_pos hps hT2) hratio
  rw [snrVal, snrVal]
  linarith

/-- C6 witness: at a concrete parameter set, raising the jitter from 0
to 1 strictly increases the jitter power and strictly lowers the SNR. -/
theorem C6_jitter_strict_monotonicity_witness :
    jitterPower true 2 1 0 < jitterPower true 2 1 1 ∧
    snrVal 2 0 0 false none true 1 1 < snrVal 2 0 0 false none true 1 0 :=
  C6_jitter_strict_monotonicity 2 0 0 false none 1 0 1 (by norm_num) (by norm_num)
    (fun _ hcc => by cases hcc) (le_refl 0) (by norm_num)

end AdcNoise
